import Mathlib

/-!
# Verification development for symbios-turtle-3d

Shallow embedding of the turtle interpretation core of the repository
(src/src/turtle.rs, src/src/skeleton.rs, src/src/interpreter.rs).

The Rust code computes over `f32`.  The embedding is parametric in the scalar
type `α` through two records of primitive operations:

* `SRing α` — the arithmetic/comparison/cast primitives (`+`, `-`, `*`, `/`,
  `<`, `is_finite`, `as u8`, `as u16`, numeric literals).  Instantiated with
  exact rationals (`rat_ring`) for the structural and geometric claims, and
  with `Option ℚ` (`nan_ring`, where `none` models an IEEE NaN, which every
  arithmetic operation and no ordered comparison propagates) for the
  non-finite-input claims.
* `STrans α` — the transcendental primitives of the external `glam`/`std`
  collaborators (`sqrt`, `sin`, `cos`, `f32::to_degrees`, `f32::to_radians`,
  `Quat::from_mat3`, `Quat::from_rotation_arc`), whose exact `f32` values are
  not rational; theorems quantify over them, and the bit-level claims about
  `to_degrees`/`to_radians` pin them to the `f32` rounding model defined below.

Numeric literals of the Rust source (`0.00001`, `0.0001`, `0.001`, `0.1`) are
embedded as the corresponding rationals; no claim depends on their exact `f32`
bit patterns.  `std::f32::consts::PI` is embedded as its exact `f32` value.
-/

namespace SymbiosTurtle3D

/-- Arithmetic primitives of the scalar type (`f32` in the Rust source). -/
structure SRing (α : Type) where
  add : α → α → α
  sub : α → α → α
  mul : α → α → α
  div : α → α → α
  neg : α → α
  ofRat : ℚ → α
  /-- IEEE-style `<`: false whenever an operand is non-finite NaN. -/
  lt : α → α → Bool
  isFinite : α → Bool
  /-- Rust `as u8` saturating cast (NaN casts to 0). -/
  toU8 : α → ℕ
  /-- Rust `as u16` saturating cast (NaN casts to 0). -/
  toU16 : α → ℕ

/-- 3-component vector (glam `Vec3`). -/
@[ext] structure Vec3 (α : Type) where
  x : α
  y : α
  z : α
deriving Repr, DecidableEq

/-- 4-component vector (glam `Vec4`), used for RGBA color. -/
@[ext] structure Vec4 (α : Type) where
  x : α
  y : α
  z : α
  w : α
deriving Repr, DecidableEq

/-- Quaternion in glam layout `(x, y, z, w)` with `w` the real part. -/
@[ext] structure Quat (α : Type) where
  x : α
  y : α
  z : α
  w : α
deriving Repr, DecidableEq

variable {α : Type}

def vadd (R : SRing α) (a b : Vec3 α) : Vec3 α :=
  ⟨R.add a.x b.x, R.add a.y b.y, R.add a.z b.z⟩

def vsub (R : SRing α) (a b : Vec3 α) : Vec3 α :=
  ⟨R.sub a.x b.x, R.sub a.y b.y, R.sub a.z b.z⟩

def vscale (R : SRing α) (a : Vec3 α) (s : α) : Vec3 α :=
  ⟨R.mul a.x s, R.mul a.y s, R.mul a.z s⟩

def vneg (R : SRing α) (a : Vec3 α) : Vec3 α :=
  ⟨R.neg a.x, R.neg a.y, R.neg a.z⟩

def vdot (R : SRing α) (a b : Vec3 α) : α :=
  R.add (R.mul a.x b.x) (R.add (R.mul a.y b.y) (R.mul a.z b.z))

/-- glam `Vec3::cross`. -/
def vcross (R : SRing α) (a b : Vec3 α) : Vec3 α :=
  ⟨R.sub (R.mul a.y b.z) (R.mul a.z b.y),
   R.sub (R.mul a.z b.x) (R.mul a.x b.z),
   R.sub (R.mul a.x b.y) (R.mul a.y b.x)⟩

/-- glam `Vec3::distance_squared`: `(self - rhs).length_squared()`. -/
def distSq (R : SRing α) (a b : Vec3 α) : α :=
  vdot R (vsub R a b) (vsub R a b)

def vzero (R : SRing α) : Vec3 α := ⟨R.ofRat 0, R.ofRat 0, R.ofRat 0⟩

def axis_x (R : SRing α) : Vec3 α := ⟨R.ofRat 1, R.ofRat 0, R.ofRat 0⟩

def axis_y (R : SRing α) : Vec3 α := ⟨R.ofRat 0, R.ofRat 1, R.ofRat 0⟩

def axis_z (R : SRing α) : Vec3 α := ⟨R.ofRat 0, R.ofRat 0, R.ofRat 1⟩

/-- glam `Quat::mul` (Hamilton product, glam component layout). -/
def qmul (R : SRing α) (a b : Quat α) : Quat α :=
  ⟨R.add (R.mul a.w b.x) (R.sub (R.add (R.mul a.x b.w) (R.mul a.y b.z)) (R.mul a.z b.y)),
   R.add (R.sub (R.mul a.w b.y) (R.mul a.x b.z)) (R.add (R.mul a.y b.w) (R.mul a.z b.x)),
   R.add (R.add (R.mul a.w b.z) (R.mul a.x b.y)) (R.sub (R.mul a.z b.w) (R.mul a.y b.x)),
   R.sub (R.mul a.w b.w) (R.add (R.mul a.x b.x) (R.add (R.mul a.y b.y) (R.mul a.z b.z)))⟩

def qconj (R : SRing α) (q : Quat α) : Quat α :=
  ⟨R.neg q.x, R.neg q.y, R.neg q.z, q.w⟩

/-- Identity quaternion (glam `Quat::IDENTITY`, `TurtleState::default` rotation). -/
def qid (R : SRing α) : Quat α := ⟨R.ofRat 0, R.ofRat 0, R.ofRat 0, R.ofRat 1⟩

/-- Rotation action of a quaternion on a vector: the sandwich product
`q * (v, 0) * conj q`.  For unit quaternions this is glam's `Quat * Vec3`. -/
def qrotate (R : SRing α) (q : Quat α) (v : Vec3 α) : Vec3 α :=
  let p := qmul R q ⟨v.x, v.y, v.z, R.ofRat 0⟩
  let r := qmul R p (qconj R q)
  ⟨r.x, r.y, r.z⟩

/-- Transcendental primitives supplied by the external `glam`/`std`
collaborators, not computable exactly on rationals. -/
structure STrans (α : Type) where
  sqrt : α → α
  sin : α → α
  cos : α → α
  /-- Embeds `f32::to_degrees`. -/
  toDeg : α → α
  /-- Embeds `f32::to_radians`. -/
  toRad : α → α
  /-- glam `Quat::from_mat3` of the matrix with the given columns. -/
  fromMat3 : Vec3 α → Vec3 α → Vec3 α → Quat α
  /-- glam `Quat::from_rotation_arc`. -/
  fromRotationArc : Vec3 α → Vec3 α → Quat α

/-- glam `Quat::from_axis_angle`: `(s, c) = sin_cos(angle * 0.5)`;
quaternion `(axis * s, c)`. -/
def from_axis_angle (R : SRing α) (T : STrans α) (axis : Vec3 α) (angle : α) : Quat α :=
  let s := T.sin (R.mul angle (R.ofRat (1/2)))
  let c := T.cos (R.mul angle (R.ofRat (1/2)))
  ⟨R.mul axis.x s, R.mul axis.y s, R.mul axis.z s, c⟩

/-- glam `Vec3::length`: `sqrt(length_squared)`. -/
def vlength (R : SRing α) (T : STrans α) (v : Vec3 α) : α :=
  T.sqrt (vdot R v v)

/-- glam `Vec3::normalize`: `self * length_recip()`. -/
def vnormalize (R : SRing α) (T : STrans α) (v : Vec3 α) : Vec3 α :=
  vscale R v (R.div (R.ofRat 1) (vlength R T v))

/-- glam `Vec3::normalize_or_zero`: the normalized vector when the reciprocal
length is finite and positive, `ZERO` otherwise. -/
def vnormalize_or_zero (R : SRing α) (T : STrans α) (v : Vec3 α) : Vec3 α :=
  let rcp := R.div (R.ofRat 1) (vlength R T v)
  if R.isFinite rcp && R.lt (R.ofRat 0) rcp then vscale R v rcp else vzero R

/-! ## Turtle state (src/src/turtle.rs)

`interpreter.rs` is the authority for the dispatch loop and uses the
flat-PBR appearance variant of the turtle (fields `color`, `material_id`,
`roughness`, `metallic`, `texture_id`); the copy of `turtle.rs` in `src/`
carries the palette variant (`uv_scale` instead of the last three fields),
so the two files do not compile together.  The state below has exactly the
fields `build_skeleton` reads and writes.  The orientation operations
(`up`, `rotate_local_*`, `rotate_axis`, `align_up_to`) are embedded verbatim
from `turtle.rs`, which is consistent with `interpreter.rs` on them. -/

structure TurtleState (α : Type) where
  position : Vec3 α
  rotation : Quat α
  width : α
  color : Vec4 α
  material_id : ℕ
  roughness : α
  metallic : α
  texture_id : ℕ
deriving Repr, DecidableEq

/-- Embeds `TurtleState::up`: `rotation * Vec3::Y`. -/
def up (R : SRing α) (t : TurtleState α) : Vec3 α :=
  qrotate R t.rotation (axis_y R)

/-- Embeds `TurtleState::forward`: `rotation * Vec3::Z`. -/
def forward (R : SRing α) (t : TurtleState α) : Vec3 α :=
  qrotate R t.rotation (axis_z R)

/-- Embeds `TurtleState::right`: `rotation * Vec3::X`. -/
def right (R : SRing α) (t : TurtleState α) : Vec3 α :=
  qrotate R t.rotation (axis_x R)

/-- Embeds `TurtleState::rotate_local_x`: `self.rotation *= Quat::from_axis_angle(X, angle)`. -/
def rotate_local_x (R : SRing α) (T : STrans α) (t : TurtleState α) (angle : α) : TurtleState α :=
  { t with rotation := qmul R t.rotation (from_axis_angle R T (axis_x R) angle) }

/-- Embeds `TurtleState::rotate_local_y`: `self.rotation *= Quat::from_axis_angle(Y, angle)`. -/
def rotate_local_y (R : SRing α) (T : STrans α) (t : TurtleState α) (angle : α) : TurtleState α :=
  { t with rotation := qmul R t.rotation (from_axis_angle R T (axis_y R) angle) }

/-- Embeds `TurtleState::rotate_local_z`: `self.rotation *= Quat::from_axis_angle(Z, angle)`. -/
def rotate_local_z (R : SRing α) (T : STrans α) (t : TurtleState α) (angle : α) : TurtleState α :=
  { t with rotation := qmul R t.rotation (from_axis_angle R T (axis_z R) angle) }

/-- Embeds `TurtleState::rotate_axis`: `self.rotation = Quat::from_axis_angle(axis, angle) * self.rotation`. -/
def rotate_axis (R : SRing α) (T : STrans α) (t : TurtleState α) (axis : Vec3 α) (angle : α) :
    TurtleState α :=
  { t with rotation := qmul R (from_axis_angle R T axis angle) t.rotation }

/-- Embeds `TurtleState::align_up_to`: `self.rotation = Quat::from_rotation_arc(self.up(), target) * self.rotation`. -/
def align_up_to (R : SRing α) (T : STrans α) (t : TurtleState α) (target_up : Vec3 α) :
    TurtleState α :=
  { t with rotation := qmul R (T.fromRotationArc (up R t) target_up) t.rotation }

/-- Embeds `TurtleOp` (src/src/turtle.rs / src/src/interpreter.rs, flat-PBR variant
used by `interpreter.rs`).  The Rust sign and default-id payloads are the
table constants `±1.0` / small integers; they are embedded as `ℚ` / `ℕ`. -/
inductive TurtleOp where
  | Draw
  | Move
  | Yaw (sign : ℚ)
  | Pitch (sign : ℚ)
  | Roll (sign : ℚ)
  | TurnAround
  | Vertical
  | SetWidth
  | Push
  | Pop
  | Spawn (default_id : ℕ)
  | SetColor
  | SetMaterial
  | SetRoughness
  | SetMetallic
  | SetTexture
  | Ignore
deriving Repr, DecidableEq

/-! ## Skeleton (src/src/skeleton.rs) -/

/-- Embeds `SkeletonPoint`, with the fields `build_skeleton` writes. -/
structure SkeletonPoint (α : Type) where
  position : Vec3 α
  rotation : Quat α
  radius : α
  color : Vec4 α
  material_id : ℕ
  roughness : α
  metallic : α
deriving Repr, DecidableEq

/-- Embeds `SkeletonProp` as constructed by the `Spawn` arm of `build_skeleton`
(src/src/interpreter.rs lines 244–258): only `surface_id`, `position`,
`rotation` and `scale` are written.  The `SkeletonProp` declared in
`src/src/skeleton.rs` additionally has `color` and `material_id` fields,
which the interpreter never fills in (see claim C9). -/
structure SkeletonProp (α : Type) where
  surface_id : ℕ
  position : Vec3 α
  rotation : Quat α
  scale : Vec3 α
deriving Repr, DecidableEq

/-- Embeds `Skeleton`: strands of points plus a flat prop list. -/
structure Skeleton (α : Type) where
  strands : List (List (SkeletonPoint α))
  props : List (SkeletonProp α)
deriving Repr, DecidableEq

/-- The squared-distance deduplication threshold `0.00001` of
`Skeleton::add_node`. -/
def dedupEps : ℚ := 1/100000

/-- Embeds `Skeleton::add_node` (src/src/skeleton.rs lines 68–79).  A forced strand
break (or an empty skeleton) starts a new strand; otherwise the point is
appended to the last strand unless its squared distance to that strand's last
point is below `dedupEps`, in which case it is silently dropped. -/
def add_node (R : SRing α) (sk : Skeleton α) (point : SkeletonPoint α)
    (force_new_strand : Bool) : Skeleton α :=
  if force_new_strand || sk.strands.isEmpty then
    { sk with strands := sk.strands ++ [[point]] }
  else
    match sk.strands.getLast? with
    | none => sk
    | some last_strand =>
      match last_strand.getLast? with
      | some last_point =>
        if R.lt (distSq R last_point.position point.position) (R.ofRat dedupEps) then sk
        else { sk with strands := sk.strands.dropLast ++ [last_strand ++ [point]] }
      | none => { sk with strands := sk.strands.dropLast ++ [last_strand ++ [point]] }

/-- Embeds `Skeleton::add_prop`. -/
def add_prop (sk : Skeleton α) (prop : SkeletonProp α) : Skeleton α :=
  { sk with props := sk.props ++ [prop] }

/-! ## f32 rounding model

`Rat`-valued model of IEEE-754 binary32 round-to-nearest-even with a 24-bit
significand and unbounded exponent (no claim exercises overflow or
subnormals).  Used to settle the bit-level claims about
`f32::to_degrees`/`f32::to_radians` and the numeric constants of the crate. -/

/-- Round a rational to the nearest integer, ties to even. -/
def rne (x : ℚ) : ℤ :=
  let f := ⌊x⌋
  let r := x - f
  if r < 1/2 then f
  else if 1/2 < r then f + 1
  else if f % 2 = 0 then f else f + 1

/-- Round a rational to the nearest `f32` value (normal range). -/
def fl (q : ℚ) : ℚ :=
  if q = 0 then 0
  else
    let e : ℤ := Int.log 2 |q|
    let m : ℤ := rne (|q| * 2 ^ (23 - e))
    (if q < 0 then -1 else 1) * (m : ℚ) * 2 ^ (e - 23)

/-- Correctly rounded `f32` multiplication. -/
def flmul (a b : ℚ) : ℚ := fl (a * b)

/-- Embeds `std::f32::consts::PI`: the `f32` nearest to π. -/
def pi_f32 : ℚ := fl (3141592653589793238462643383279502884197 / 10 ^ 39)

/-- The constant of `f32::to_degrees`: the `f32` value of the Rust literal
`57.2957795130823208767981548141051703` (180/π). -/
def deg_per_rad_f32 : ℚ := fl (572957795130823208767981548141051703 / 10 ^ 34)

/-- The constant of `f32::to_radians`: `consts::PI / 180.0` computed in `f32`. -/
def rad_per_deg_f32 : ℚ := fl (pi_f32 / 180)

/-- Embeds `f32::to_degrees`: `self * 57.295779513…`. -/
def to_degrees_f32 (x : ℚ) : ℚ := flmul x deg_per_rad_f32

/-- Embeds `f32::to_radians`: `self * (PI / 180.0)`. -/
def to_radians_f32 (x : ℚ) : ℚ := flmul x rad_per_deg_f32

/-- Embeds `45.0f32.to_radians()`: the `TurtleConfig::default` angle. -/
def default_angle_f32 : ℚ := to_radians_f32 45

/-! ## Interpreter (src/src/interpreter.rs) -/

/-- Embeds `TurtleConfig`. -/
structure TurtleConfig (α : Type) where
  default_step : α
  default_angle : α
  initial_width : α
  tropism : Option (Vec3 α)
  elasticity : α

/-- One record of the external instruction stream (a `SymbiosState` view):
symbol identifier plus ordered numeric parameters.  The Rust parameters are
`f64` narrowed to `f32` at extraction; both are embedded as `α`. -/
structure InstrView (α : Type) where
  sym : ℕ
  params : List α

/-- The operation table: `HashMap<u16, TurtleOp>` modelled as a lookup
function; absent identifiers resolve to `none`. -/
def OpMap : Type := ℕ → Option TurtleOp

/-- Embeds `HashMap::insert`: later insertions overwrite earlier ones. -/
def insert_op (m : OpMap) (id : ℕ) (op : TurtleOp) : OpMap :=
  fun k => if k = id then some op else m k

/-- The fixed standard-symbol table of `populate_standard_symbols`
(src/src/interpreter.rs lines 52–73), token strings embedded verbatim —
in particular the roll token is the two-character Rust literal `"\\\\"`. -/
def standard_mappings : List (String × TurtleOp) :=
  [("F", .Draw), ("f", .Move),
   ("+", .Yaw 1), ("-", .Yaw (-1)),
   ("&", .Pitch 1), ("^", .Pitch (-1)),
   ("\\\\", .Roll 1), ("/", .Roll (-1)),
   ("|", .TurnAround), ("$", .Vertical), ("!", .SetWidth),
   ("[", .Push), ("]", .Pop), ("~", .Spawn 0),
   ("'", .SetColor), (",", .SetMaterial), ("#", .SetRoughness),
   ("@", .SetMetallic), (";", .SetTexture)]

/-- Embeds `TurtleInterpreter::populate_standard_symbols`: for each standard token
the interner resolves, insert its operation; unresolved tokens are skipped. -/
def populate_standard_symbols (resolve_id : String → Option ℕ) (m : OpMap) : OpMap :=
  standard_mappings.foldl
    (fun acc p =>
      match resolve_id p.1 with
      | some id => insert_op acc id p.2
      | none => acc)
    m

/-- The parameter-extraction closure `p`: parameter `idx` as a float, or the
given default when absent. -/
def getP (params : List α) (idx : ℕ) (d : α) : α :=
  (params.get? idx).getD d

/-- The closure `get_val`: first parameter or the default. -/
def get_val (params : List α) (d : α) : α :=
  (params.headD d)

/-- The angle expression shared by the `Yaw`/`Pitch`/`Roll` arms:
`get_val(config.default_angle.to_degrees()).to_radians() * sign`. -/
def rot_angle (R : SRing α) (toDeg toRad : α → α) (cfg : TurtleConfig α)
    (params : List α) (sign : ℚ) : α :=
  R.mul (toRad (get_val params (toDeg cfg.default_angle))) (R.ofRat sign)

/-- Rust `f32::clamp(min, max)`. -/
def clampf (R : SRing α) (x lo hi : α) : α :=
  if R.lt x lo then lo else if R.lt hi x then hi else x

/-- The `SetColor` arm: 1 parameter = grayscale, 3 = RGB (opaque),
4 = RGBA, anything else leaves the color unchanged. -/
def set_color_value (R : SRing α) (params : List α) (cur : Vec4 α) : Vec4 α :=
  match params.length with
  | 1 => ⟨getP params 0 (R.ofRat 0), getP params 0 (R.ofRat 0), getP params 0 (R.ofRat 0), R.ofRat 1⟩
  | 3 => ⟨getP params 0 (R.ofRat 0), getP params 1 (R.ofRat 0), getP params 2 (R.ofRat 0), R.ofRat 1⟩
  | 4 => ⟨getP params 0 (R.ofRat 0), getP params 1 (R.ofRat 0), getP params 2 (R.ofRat 0), getP params 3 (R.ofRat 1)⟩
  | _ => cur

/-- The skeleton point pushed by `build_skeleton`: full turtle state snapshot,
`radius = width / 2.0`. -/
def mk_point (R : SRing α) (t : TurtleState α) : SkeletonPoint α :=
  { position := t.position, rotation := t.rotation, radius := R.div t.width (R.ofRat 2),
    color := t.color, material_id := t.material_id,
    roughness := t.roughness, metallic := t.metallic }

/-- Interpreter loop state: the output skeleton, the live turtle, and the
branch stack (head = most recently pushed). -/
structure LoopState (α : Type) where
  skeleton : Skeleton α
  turtle : TurtleState α
  stack : List (TurtleState α)

/-- The tropism block of the `Draw` arm (src/src/interpreter.rs lines
131–141): only for a configured direction with `elasticity > 0.0`,
`cross(up, tropism)` with magnitude above the `0.0001` threshold bends the
heading in world space about the normalized cross axis by
`elasticity * magnitude`. -/
def apply_tropism (R : SRing α) (T : STrans α) (cfg : TurtleConfig α)
    (t : TurtleState α) : TurtleState α :=
  match cfg.tropism with
  | none => t
  | some t_vec =>
    if R.lt (R.ofRat 0) cfg.elasticity then
      let h_cross_t := vcross R (up R t) t_vec
      let mag := vlength R T h_cross_t
      if R.lt (R.ofRat (1/10000)) mag then
        rotate_axis R T t (vnormalize R T h_cross_t) (R.mul cfg.elasticity mag)
      else t
    else t

/-- The `Draw`/`Move` arm of `build_skeleton` (src/src/interpreter.rs lines
106–160): seed a first strand point if the skeleton is empty, advance the
position along local up by the step, apply tropism bending (only for
`Draw`), then push the end point, forcing a new strand exactly when the
operation is `Move`. -/
def draw_move_step (R : SRing α) (T : STrans α) (cfg : TurtleConfig α)
    (view : InstrView α) (st : LoopState α) (is_move : Bool) : LoopState α :=
  let len := get_val view.params cfg.default_step
  let sk0 := if st.skeleton.strands.isEmpty then
      add_node R st.skeleton (mk_point R st.turtle) true
    else st.skeleton
  let t1 := { st.turtle with position := vadd R st.turtle.position (vscale R (up R st.turtle) len) }
  let t2 := if is_move then t1 else apply_tropism R T cfg t1
  { st with turtle := t2, skeleton := add_node R sk0 (mk_point R t2) is_move }

/-- The `Vertical` arm: recompute the rotation with up = heading and the
left axis forced horizontal, unless the heading is already vertical. -/
def vertical_step (R : SRing α) (T : STrans α) (t : TurtleState α) : TurtleState α :=
  let h := up R t
  let l := vnormalize_or_zero R T (vcross R (axis_y R) h)
  if R.lt (R.ofRat (1/1000)) (vdot R l l) then
    let u := vnormalize R T (vcross R h l)
    { t with rotation := T.fromMat3 (vneg R l) h u }
  else t

/-- One iteration of the `build_skeleton` dispatch loop: resolve the symbol
(absent identifiers act as `Ignore`) and dispatch. -/
def step (R : SRing α) (T : STrans α) (cfg : TurtleConfig α) (op_map : OpMap)
    (view : InstrView α) (st : LoopState α) : LoopState α :=
  match (op_map view.sym).getD .Ignore with
  | .Draw => draw_move_step R T cfg view st false
  | .Move => draw_move_step R T cfg view st true
  | .Yaw sign =>
      { st with turtle := rotate_local_z R T st.turtle (rot_angle R T.toDeg T.toRad cfg view.params sign) }
  | .Pitch sign =>
      { st with turtle := rotate_local_x R T st.turtle (rot_angle R T.toDeg T.toRad cfg view.params sign) }
  | .Roll sign =>
      { st with turtle := rotate_local_y R T st.turtle (rot_angle R T.toDeg T.toRad cfg view.params sign) }
  | .TurnAround =>
      { st with turtle := rotate_local_z R T st.turtle (R.ofRat pi_f32) }
  | .Vertical => { st with turtle := vertical_step R T st.turtle }
  | .SetWidth =>
      { st with turtle := { st.turtle with width := get_val view.params st.turtle.width } }
  | .SetColor =>
      { st with turtle := { st.turtle with color := set_color_value R view.params st.turtle.color } }
  | .SetMaterial =>
      { st with turtle := { st.turtle with material_id := R.toU8 (getP view.params 0 (R.ofRat 0)) } }
  | .SetRoughness =>
      { st with turtle := { st.turtle with roughness := clampf R (getP view.params 0 (R.ofRat 0)) (R.ofRat 0) (R.ofRat 1) } }
  | .SetMetallic =>
      { st with turtle := { st.turtle with metallic := clampf R (getP view.params 0 (R.ofRat 0)) (R.ofRat 0) (R.ofRat 1) } }
  | .SetTexture =>
      { st with turtle := { st.turtle with texture_id := R.toU16 (getP view.params 0 (R.ofRat 0)) } }
  | .Push =>
      { st with stack := st.turtle :: st.stack,
                skeleton := add_node R st.skeleton (mk_point R st.turtle) true }
  | .Pop =>
      match st.stack with
      | [] => st
      | saved :: rest =>
        { skeleton := add_node R st.skeleton (mk_point R saved) true,
          turtle := saved, stack := rest }
  | .Spawn default_id =>
      let surface_id := ((view.params.get? 0).map R.toU16).getD default_id
      let scale := getP view.params 1 (R.ofRat 1)
      let prop : SkeletonProp α :=
        ⟨surface_id, st.turtle.position, st.turtle.rotation, ⟨scale, scale, scale⟩⟩
      { st with skeleton := add_prop st.skeleton prop }
  | .Ignore => st

/-- The `for i in 0..state.len()` loop of `build_skeleton`: the list models
the sequence of `state.get_view(i)` results; a `none` (unfetchable
instruction) breaks out of the loop cleanly. -/
def run_loop (R : SRing α) (T : STrans α) (cfg : TurtleConfig α) (op_map : OpMap) :
    List (Option (InstrView α)) → LoopState α → LoopState α
  | [], st => st
  | none :: _, st => st
  | some v :: rest, st => run_loop R T cfg op_map rest (step R T cfg op_map v st)

/-- Embeds `TurtleState::default` with the flat-PBR appearance fields.  Position
zero, identity rotation, width 0.1, opaque white color, material 0 (per
`turtle.rs` / spec §3).  The flat-PBR `Default` impl is not part of `src/`
(its `turtle.rs` copy is the palette variant), so the roughness/metallic/
texture defaults are set to zero here; no theorem depends on their values,
and `build_skeleton` overrides the width with `config.initial_width`. -/
def default_turtle (R : SRing α) : TurtleState α :=
  { position := vzero R, rotation := qid R, width := R.ofRat (1/10),
    color := ⟨R.ofRat 1, R.ofRat 1, R.ofRat 1, R.ofRat 1⟩, material_id := 0,
    roughness := R.ofRat 0, metallic := R.ofRat 0, texture_id := 0 }

/-- The state `build_skeleton` starts from: a fresh skeleton, a default
turtle with the configured width, and an empty branch stack. -/
def init_state (R : SRing α) (cfg : TurtleConfig α) : LoopState α :=
  { skeleton := ⟨[], []⟩,
    turtle := { default_turtle R with width := cfg.initial_width },
    stack := [] }

/-- Embeds `TurtleInterpreter::build_skeleton`: single forward pass over the
instruction stream. -/
def build_skeleton (R : SRing α) (T : STrans α) (cfg : TurtleConfig α) (op_map : OpMap)
    (instrs : List (Option (InstrView α))) : Skeleton α :=
  (run_loop R T cfg op_map instrs (init_state R cfg)).skeleton

/-! ## Scalar instances -/

/-- Exact rational arithmetic: the instantiation used for the structural and
geometric claims (every operation they exercise is exact in `f32` as well or
is quantified over). -/
def rat_ring : SRing ℚ where
  add := (· + ·)
  sub := (· - ·)
  mul := (· * ·)
  div := (· / ·)
  neg := (- ·)
  ofRat := id
  lt := fun a b => decide (a < b)
  isFinite := fun _ => true
  toU8 := fun q => (max 0 (min 255 ⌊q⌋)).toNat
  toU16 := fun q => (max 0 (min 65535 ⌊q⌋)).toNat

/-- NaN-tracking scalars: `none` models an IEEE NaN.  Every arithmetic
operation propagates it, ordered comparisons on it are false, and division
by zero produces it (collapsing the infinite results into the non-finite
marker as well). -/
def nan_ring : SRing (Option ℚ) where
  add := fun a b => match a, b with | some x, some y => some (x + y) | _, _ => none
  sub := fun a b => match a, b with | some x, some y => some (x - y) | _, _ => none
  mul := fun a b => match a, b with | some x, some y => some (x * y) | _, _ => none
  div := fun a b => match a, b with
    | some x, some y => if y = 0 then none else some (x / y)
    | _, _ => none
  neg := fun a => a.map (- ·)
  ofRat := some
  lt := fun a b => match a, b with | some x, some y => decide (x < y) | _, _ => false
  isFinite := fun a => a.isSome
  toU8 := fun a => match a with | some q => (max 0 (min 255 ⌊q⌋)).toNat | none => 0
  toU16 := fun a => match a with | some q => (max 0 (min 65535 ⌊q⌋)).toNat | none => 0

/-- Embeds `TurtleConfig::default` (src/src/interpreter.rs lines 17–27) over exact
rationals: step 1.0, angle `45° in radians`, width 0.1, no tropism,
elasticity 0.  The default angle is the exact `f32` value
`45.0f32.to_radians()`. -/
def default_config : TurtleConfig ℚ :=
  { default_step := 1, default_angle := default_angle_f32, initial_width := 1/10,
    tropism := none, elasticity := 0 }

/-- Rational stand-ins for the transcendental collaborators, used only to
instantiate theorems that quantify over every `STrans` (or that depend only
on `toDeg`/`toRad`, which are the faithful `f32` conversions here).  `sqrt`,
`sin` and `cos` are the identity: exact where the concrete statements below
evaluate them (`sqrt 0 = 0`, `sqrt 1 = 1`) and agreeing with the true
functions in sign and nonvanishing at the other evaluated arguments. -/
def approx_trans : STrans ℚ :=
  { sqrt := fun q => q, sin := fun q => q, cos := fun q => q,
    toDeg := to_degrees_f32, toRad := to_radians_f32,
    fromMat3 := fun _ _ _ => qid rat_ring,
    fromRotationArc := fun _ _ => qid rat_ring }

/-! ## Test fixtures

Concrete operation tables, interners and instruction streams used by the
closed statements below; they mirror the fixtures of the crate's own test
files (`tests/rotation_tests.rs`, `tests/interpretation_tests.rs`,
`tests/pbr_interpretation_tests.rs`, `tests/adversarial_logic_tests.rs`). -/

/-- A small operation table assigning fixed identifiers, as the tests do via
interning plus `populate_standard_symbols` / `set_op`. -/
def fixture_map : OpMap := fun k =>
  if k = 0 then some .Draw
  else if k = 1 then some .Push
  else if k = 2 then some .Pop
  else if k = 3 then some .SetColor
  else if k = 4 then some .SetMaterial
  else if k = 5 then some (.Spawn 0)
  else if k = 6 then some (.Yaw 1)
  else none

/-- The interner state built by `tests/rotation_tests.rs::setup`: the
single-character tokens `F + - & ^ \ / | $` interned in order, ids 0–8.
In particular id 5 is the ONE-character backslash token. -/
def rotation_tests_interner : String → Option ℕ := fun s =>
  if s = "F" then some 0
  else if s = "+" then some 1
  else if s = "-" then some 2
  else if s = "&" then some 3
  else if s = "^" then some 4
  else if s = "\\" then some 5
  else if s = "/" then some 6
  else if s = "|" then some 7
  else if s = "$" then some 8
  else none

/-- The stream `F(10) [ F(5) ] F(10)` of
`tests/interpretation_tests.rs::test_branching_topology`. -/
def branching_instrs : List (Option (InstrView ℚ)) :=
  [some ⟨0, [10]⟩, some ⟨1, []⟩, some ⟨0, [5]⟩, some ⟨2, []⟩, some ⟨0, [10]⟩]

/-- The stream of `tests/pbr_interpretation_tests.rs::`
`test_prop_inherits_turtle_material_state`: set color green, set material 3,
spawn prop 7. -/
def pbr_prop_instrs : List (Option (InstrView ℚ)) :=
  [some ⟨3, [0, 1, 0]⟩, some ⟨4, [3]⟩, some ⟨5, [7]⟩]

/-! ## Claims -/

/-- C1. For every finite instruction stream, `build_skeleton` terminates
and returns a `Skeleton` without raising any error: unknown symbol
identifiers act as no-ops, instructions with missing parameters use
per-operation defaults, popping an empty branch stack is a silent no-op,
and an unfetchable instruction ends the pass cleanly. -/
theorem c1_build_skeleton_total_and_graceful :
    ∀ (α : Type) (R : SRing α) (T : STrans α) (cfg : TurtleConfig α) (op_map : OpMap),
      (∀ instrs : List (Option (InstrView α)),
        ∃ sk, build_skeleton R T cfg op_map instrs = sk) ∧
      (∀ (v : InstrView α) (st : LoopState α),
        op_map v.sym = none → step R T cfg op_map v st = st) ∧
      (∀ (params : List α) (i : ℕ) (d : α), params.length ≤ i → getP params i d = d) ∧
      (∀ d : α, get_val ([] : List α) d = d) ∧
      (∀ (v : InstrView α) (st : LoopState α),
        op_map v.sym = some .Pop → st.stack = [] → step R T cfg op_map v st = st) ∧
      (∀ (pre post : List (Option (InstrView α))) (st : LoopState α),
        (∀ x ∈ pre, x ≠ none) →
        run_loop R T cfg op_map (pre ++ none :: post) st = run_loop R T cfg op_map pre st) := by
  intro α R T cfg op_map
  refine ⟨fun instrs => ⟨_, rfl⟩, ?_, ?_, fun d => rfl, ?_, ?_⟩
  · intro v st h
    simp [step, h]
  · intro params i d h
    simp [getP, List.getElem?_eq_none h]
  · intro v st h hstack
    simp [step, h, hstack]
  · intro pre post st hall
    induction pre generalizing st with
    | nil => simp [run_loop]
    | cons x rest ih =>
      cases x with
      | none => exact absurd rfl (hall none (List.mem_cons_self _ _))
      | some v =>
        simp only [List.cons_append, run_loop]
        exact ih _ (fun y hy => hall y (List.mem_cons_of_mem _ hy))

/-- Witness for C1: concrete instances of the graceful-degradation clauses —
an unmapped symbol (id 99), a `Pop` (id 2) on an empty stack, and an
immediately unfetchable instruction. -/
theorem c1_witness :
    (fixture_map 99 = none ∧
      step rat_ring approx_trans default_config fixture_map ⟨99, []⟩
        (init_state rat_ring default_config) = init_state rat_ring default_config) ∧
    (fixture_map 2 = some .Pop ∧
      step rat_ring approx_trans default_config fixture_map ⟨2, []⟩
        (init_state rat_ring default_config) = init_state rat_ring default_config) ∧
    run_loop rat_ring approx_trans default_config fixture_map [none]
        (init_state rat_ring default_config) =
      run_loop rat_ring approx_trans default_config fixture_map []
        (init_state rat_ring default_config) := by
  refine ⟨⟨rfl, ?_⟩, ⟨rfl, ?_⟩, ?_⟩
  · exact (c1_build_skeleton_total_and_graceful ℚ rat_ring approx_trans default_config
      fixture_map).2.1 ⟨99, []⟩ _ rfl
  · exact (c1_build_skeleton_total_and_graceful ℚ rat_ring approx_trans default_config
      fixture_map).2.2.2.2.1 ⟨2, []⟩ _ rfl rfl
  · exact (c1_build_skeleton_total_and_graceful ℚ rat_ring approx_trans default_config
      fixture_map).2.2.2.2.2 [] [] _ (by simp)

/-- C5. For any turtle state, `Push` immediately followed by `Pop`
restores the entire interpreter state — position, rotation, width and the
whole appearance state verbatim (the Rust code saves and restores the `Copy`
struct bit-for-bit; the embedding mirrors this as record equality), and the
branch stack — and each of the two operations forces a strand break at the
current point (two new strands each starting at the current point's
snapshot). -/
theorem c5_push_pop_restores_state :
    ∀ (α : Type) (R : SRing α) (T : STrans α) (cfg : TurtleConfig α) (op_map : OpMap)
      (pushV popV : InstrView α) (st : LoopState α),
      op_map pushV.sym = some .Push → op_map popV.sym = some .Pop →
      step R T cfg op_map popV (step R T cfg op_map pushV st) =
        { skeleton :=
            { strands := st.skeleton.strands ++ [[mk_point R st.turtle], [mk_point R st.turtle]],
              props := st.skeleton.props },
          turtle := st.turtle, stack := st.stack } := by
  intro α R T cfg op_map pushV popV st h1 h2
  simp [step, h1, h2, add_node]

/-- Witness for C5: `[` then `]` from the initial interpreter state. -/
theorem c5_witness :
    (fixture_map 1 = some .Push ∧ fixture_map 2 = some .Pop) ∧
    step rat_ring approx_trans default_config fixture_map ⟨2, []⟩
        (step rat_ring approx_trans default_config fixture_map ⟨1, []⟩
          (init_state rat_ring default_config)) =
      { skeleton :=
          { strands := [[mk_point rat_ring (init_state rat_ring default_config).turtle],
                        [mk_point rat_ring (init_state rat_ring default_config).turtle]],
            props := [] },
        turtle := (init_state rat_ring default_config).turtle, stack := [] } := by
  exact ⟨⟨rfl, rfl⟩,
    c5_push_pop_restores_state ℚ rat_ring approx_trans default_config fixture_map
      ⟨1, []⟩ ⟨2, []⟩ (init_state rat_ring default_config) rfl rfl⟩

/-- C7. Local rotations (`rotate_local_x/y/z`) compose the axis rotation
on the right of the current rotation, while world-space rotations
(`rotate_axis`, `align_up_to`) compose on the left; over exact rationals the
sandwich action turns right-composition into action in the turtle's own
frame (the homomorphism clause), and the two composition orders genuinely
differ (quaternion multiplication is not commutative). -/
theorem c7_local_post_multiplies_world_pre_multiplies :
    ∀ (α : Type) (R : SRing α) (T : STrans α) (t : TurtleState α) (angle : α)
      (axis target : Vec3 α),
      (rotate_local_x R T t angle).rotation =
        qmul R t.rotation (from_axis_angle R T (axis_x R) angle) ∧
      (rotate_local_y R T t angle).rotation =
        qmul R t.rotation (from_axis_angle R T (axis_y R) angle) ∧
      (rotate_local_z R T t angle).rotation =
        qmul R t.rotation (from_axis_angle R T (axis_z R) angle) ∧
      (rotate_axis R T t axis angle).rotation =
        qmul R (from_axis_angle R T axis angle) t.rotation ∧
      (align_up_to R T t target).rotation =
        qmul R (T.fromRotationArc (up R t) target) t.rotation ∧
      (∀ (p q : Quat ℚ) (v : Vec3 ℚ),
        qrotate rat_ring (qmul rat_ring p q) v = qrotate rat_ring p (qrotate rat_ring q v)) ∧
      qmul rat_ring ⟨1, 0, 0, 0⟩ ⟨0, 0, 1, 0⟩ ≠ qmul rat_ring ⟨0, 0, 1, 0⟩ ⟨1, 0, 0, 0⟩ := by
  intro α R T t angle axis target
  refine ⟨rfl, rfl, rfl, rfl, rfl, ?_, ?_⟩
  · intro p q v
    ext <;> simp [qrotate, qmul, qconj, rat_ring] <;> ring
  · intro h
    have hy := congrArg Quat.y h
    simp [qmul, rat_ring] at hy
    norm_num at hy

/-- Witness for C7: the composition-order equations instantiated on the
default turtle with the rational stand-in collaborators. -/
theorem c7_witness :
    (rotate_local_z rat_ring approx_trans (default_turtle rat_ring) 1).rotation =
      qmul rat_ring (default_turtle rat_ring).rotation
        (from_axis_angle rat_ring approx_trans (axis_z rat_ring) 1) ∧
    (rotate_axis rat_ring approx_trans (default_turtle rat_ring) ⟨1, 0, 0⟩ 1).rotation =
      qmul rat_ring (from_axis_angle rat_ring approx_trans ⟨1, 0, 0⟩ 1)
        (default_turtle rat_ring).rotation :=
  ⟨(c7_local_post_multiplies_world_pre_multiplies ℚ rat_ring approx_trans
      (default_turtle rat_ring) 1 ⟨1, 0, 0⟩ ⟨0, 1, 0⟩).2.2.1,
   (c7_local_post_multiplies_world_pre_multiplies ℚ rat_ring approx_trans
      (default_turtle rat_ring) 1 ⟨1, 0, 0⟩ ⟨0, 1, 0⟩).2.2.2.1⟩

/-- The operation table produced by `populate_standard_symbols` over the
interner of `tests/rotation_tests.rs` (starting from an empty table, as
`TurtleInterpreter::new` does). -/
def rotation_tests_map : OpMap :=
  populate_standard_symbols rotation_tests_interner (fun _ => none)

/-- C3 (evaluation at the failing input).  `populate_standard_symbols`
installs the baked signs for `+ - & ^ /` (and the parameterless standard
ops) for every token the interner knows, and skips unknown tokens silently —
but the roll-positive entry is keyed by the TWO-character Rust literal
`"\\\\"`, which the interner does not know, so the ONE-character backslash
token (id 5), which the interner does know, ends up with no operation at all
(it resolves to `Ignore`), contradicting the claim, `turtle.rs`'s
documentation of `Roll`, and `tests/rotation_tests.rs`'s roll test. -/
theorem c3_backslash_token_left_unmapped :
    rotation_tests_map 0 = some .Draw ∧
    rotation_tests_map 1 = some (.Yaw 1) ∧
    rotation_tests_map 2 = some (.Yaw (-1)) ∧
    rotation_tests_map 3 = some (.Pitch 1) ∧
    rotation_tests_map 4 = some (.Pitch (-1)) ∧
    rotation_tests_map 6 = some (.Roll (-1)) ∧
    rotation_tests_map 7 = some .TurnAround ∧
    rotation_tests_map 8 = some .Vertical ∧
    rotation_tests_interner "\\" = some 5 ∧
    rotation_tests_interner "\\\\" = none ∧
    rotation_tests_map 5 = none := by
  refine ⟨?_, ?_, ?_, ?_, ?_, ?_, ?_, ?_, rfl, rfl, ?_⟩ <;>
    simp [rotation_tests_map, populate_standard_symbols, standard_mappings,
      rotation_tests_interner, insert_op]

/-- C9 (evaluation at the failing input).  On the stream of
`test_prop_inherits_turtle_material_state` — set color green, set material 3,
spawn prop 7 — the `Spawn` arm of `build_skeleton` emits a prop carrying only
identifier, position, rotation and scale: the turtle's appearance state
(color `(0,1,0,1)`, material 3) set just before is not copied into the prop,
although `skeleton.rs`'s `SkeletonProp` declares `color`/`material_id` fields
documented as inherited at spawn time and the PBR tests assert them. -/
theorem c9_spawn_emits_prop_without_appearance :
    (build_skeleton rat_ring approx_trans default_config fixture_map pbr_prop_instrs).props =
      [⟨7, vzero rat_ring, qid rat_ring, ⟨1, 1, 1⟩⟩] ∧
    (run_loop rat_ring approx_trans default_config fixture_map pbr_prop_instrs
        (init_state rat_ring default_config)).turtle.color = ⟨0, 1, 0, 1⟩ ∧
    (run_loop rat_ring approx_trans default_config fixture_map pbr_prop_instrs
        (init_state rat_ring default_config)).turtle.material_id = 3 := by
  refine ⟨?_, ?_, ?_⟩ <;>
    norm_num [build_skeleton, run_loop, step, fixture_map, pbr_prop_instrs, init_state,
      default_turtle, default_config, set_color_value, getP, get_val, add_prop, rat_ring,
      vzero, qid, Int.toNat]

/-- C6. Interpreting `F(10) [ F(5) ] F(10)` from the default initial
state yields exactly three strands along the world Y axis — root `0 → 10`,
branch `10 → 15`, resumed trunk `10 → 20` — whatever the transcendental
collaborators are (the stream exercises none of them). -/
theorem c6_branching_yields_three_strands :
    ∀ T : STrans ℚ,
      ((build_skeleton rat_ring T default_config fixture_map branching_instrs).strands.map
        (fun s => s.map (fun p => p.position))) =
      [[⟨0, 0, 0⟩, ⟨0, 10, 0⟩], [⟨0, 10, 0⟩, ⟨0, 15, 0⟩], [⟨0, 10, 0⟩, ⟨0, 20, 0⟩]] := by
  intro T
  norm_num [build_skeleton, run_loop, step, fixture_map, branching_instrs, init_state,
    default_turtle, default_config, draw_move_step, apply_tropism, add_node, mk_point,
    get_val, getP, up, qrotate, qmul, qconj, qid, axis_y, vadd, vscale, vsub, vdot,
    distSq, vzero, dedupEps, rat_ring]

/-! ### Evaluation of the `f32` rounding model -/

lemma int_log_two_eq (q : ℚ) (e : ℤ) (hq : 0 < q) (h1 : (2 : ℚ) ^ e ≤ q)
    (h2 : q < (2 : ℚ) ^ (e + 1)) : Int.log 2 q = e := by
  have hle : e ≤ Int.log 2 q := by
    rw [← Int.zpow_le_iff_le_log one_lt_two hq]
    exact_mod_cast h1
  have hlt : Int.log 2 q < e + 1 := by
    rw [← Int.lt_zpow_iff_log_lt one_lt_two hq]
    exact_mod_cast h2
  omega

lemma fl_eq_pos (q : ℚ) (e m : ℤ) (hq : 0 < q) (h1 : (2 : ℚ) ^ e ≤ q)
    (h2 : q < (2 : ℚ) ^ (e + 1)) (hm : rne (q * 2 ^ (23 - e)) = m) :
    fl q = (m : ℚ) * 2 ^ (e - 23) := by
  unfold fl
  rw [if_neg hq.ne', abs_of_pos hq, int_log_two_eq q e hq h1 h2]
  simp only [hm, if_neg (not_lt.mpr hq.le), one_mul]

lemma pi_f32_eq : pi_f32 = 13176795 / 4194304 := by
  rw [pi_f32, fl_eq_pos _ 1 13176795 (by norm_num) (by norm_num) (by norm_num)
    (by norm_num [rne])]
  norm_num

lemma deg_per_rad_f32_eq : deg_per_rad_f32 = 15019745 / 262144 := by
  rw [deg_per_rad_f32, fl_eq_pos _ 5 15019745 (by norm_num) (by norm_num) (by norm_num)
    (by norm_num [rne])]
  norm_num

lemma rad_per_deg_f32_eq : rad_per_deg_f32 = 9370165 / 536870912 := by
  rw [rad_per_deg_f32, pi_f32_eq,
    fl_eq_pos _ (-6) 9370165 (by norm_num) (by norm_num) (by norm_num) (by norm_num [rne])]
  norm_num

lemma default_angle_f32_eq : default_angle_f32 = 13176795 / 16777216 := by
  rw [default_angle_f32, to_radians_f32, flmul, rad_per_deg_f32_eq,
    fl_eq_pos _ (-1) 13176795 (by norm_num) (by norm_num) (by norm_num) (by norm_num [rne])]
  norm_num

/-- Evaluation: `to_degrees` of the crate's default angle is exactly `45.0`. -/
lemma to_degrees_default_angle_eq : to_degrees_f32 default_angle_f32 = 45 := by
  rw [to_degrees_f32, flmul, default_angle_f32_eq, deg_per_rad_f32_eq,
    fl_eq_pos _ 5 11796480 (by norm_num) (by norm_num) (by norm_num) (by norm_num [rne])]
  norm_num

/-- The degrees→radians round trip is the identity on the crate's default
45° angle. -/
lemma roundtrip_preserves_default_angle :
    to_radians_f32 (to_degrees_f32 default_angle_f32) = default_angle_f32 := by
  rw [to_degrees_default_angle_eq, default_angle_f32]

/-- The `f32` value `7920783 / 2^25 ≈ 0.2360577` (a representable angle that
a caller may configure as `default_angle`). -/
def ulp_angle : ℚ := 7920783 / 33554432

lemma to_degrees_ulp_angle_eq : to_degrees_f32 ulp_angle = 3545527 / 262144 := by
  rw [to_degrees_f32, flmul, ulp_angle, deg_per_rad_f32_eq,
    fl_eq_pos _ 3 14182108 (by norm_num) (by norm_num) (by norm_num) (by norm_num [rne])]
  norm_num

/-- The degrees→radians round trip moves `ulp_angle` by one unit in the last
place. -/
lemma roundtrip_alters_ulp_angle :
    to_radians_f32 (to_degrees_f32 ulp_angle) = 15841567 / 67108864 := by
  rw [to_degrees_ulp_angle_eq, to_radians_f32, flmul, rad_per_deg_f32_eq,
    fl_eq_pos _ (-3) 15841567 (by norm_num) (by norm_num) (by norm_num) (by norm_num [rne])]
  norm_num

/-- A configuration whose default angle is `ulp_angle` (any caller may
configure this; step/width/tropism as in `TurtleConfig::default`). -/
def ulp_config : TurtleConfig ℚ :=
  { default_step := 1, default_angle := ulp_angle, initial_width := 1/10,
    tropism := none, elasticity := 0 }

/-- C10 counterexample.  With the faithful `f32` conversions, the angle
the `Yaw` arm computes for a parameterless instruction (the expression
`get_val(default_angle.to_degrees()).to_radians() * sign`, here with sign
`+1`) is NOT bit-for-bit the configured default angle when the configured
default is `ulp_angle`: the degrees→radians round trip moves it by one unit
in the last place. -/
theorem c10_counterexample_roundtrip_alters_angle :
    rot_angle rat_ring to_degrees_f32 to_radians_f32 ulp_config [] 1 ≠
      rat_ring.mul ulp_config.default_angle (rat_ring.ofRat 1) := by
  simp only [rot_angle, get_val, List.headD_nil, rat_ring, ulp_config, mul_one, id_eq]
  rw [roundtrip_alters_ulp_angle]
  norm_num [ulp_angle]

/-- C10 (amended).  For each of `Yaw`, `Pitch` and `Roll` with no
parameter, the angle actually applied is bit-for-bit the baked-in sign times
`to_radians(to_degrees(default_angle))` — the `f32` degrees→radians round
trip of the configured default angle, not the default angle itself.  The
round trip preserves the crate's own default (45° in radians) exactly, but
alters other configurable defaults (e.g. `ulp_angle`) by one unit in the
last place. -/
theorem c10_no_param_angle_is_roundtripped_default :
    ∀ (T : STrans ℚ) (cfg : TurtleConfig ℚ) (op_map : OpMap) (sym : ℕ) (s : ℚ)
      (st : LoopState ℚ),
      T.toDeg = to_degrees_f32 → T.toRad = to_radians_f32 →
      (op_map sym = some (.Yaw s) →
        step rat_ring T cfg op_map ⟨sym, []⟩ st =
          { st with
            turtle :=
              rotate_local_z rat_ring T st.turtle
                (to_radians_f32 (to_degrees_f32 cfg.default_angle) * s) }) ∧
      (op_map sym = some (.Pitch s) →
        step rat_ring T cfg op_map ⟨sym, []⟩ st =
          { st with
            turtle :=
              rotate_local_x rat_ring T st.turtle
                (to_radians_f32 (to_degrees_f32 cfg.default_angle) * s) }) ∧
      (op_map sym = some (.Roll s) →
        step rat_ring T cfg op_map ⟨sym, []⟩ st =
          { st with
            turtle :=
              rotate_local_y rat_ring T st.turtle
                (to_radians_f32 (to_degrees_f32 cfg.default_angle) * s) }) ∧
      to_radians_f32 (to_degrees_f32 default_angle_f32) = default_angle_f32 ∧
      to_radians_f32 (to_degrees_f32 ulp_angle) ≠ ulp_angle := by
  intro T cfg op_map sym s st hdeg hrad
  refine ⟨?_, ?_, ?_, roundtrip_preserves_default_angle, ?_⟩
  · intro h
    simp [step, h, rot_angle, get_val, hdeg, hrad, rat_ring]
  · intro h
    simp [step, h, rot_angle, get_val, hdeg, hrad, rat_ring]
  · intro h
    simp [step, h, rot_angle, get_val, hdeg, hrad, rat_ring]
  · rw [roundtrip_alters_ulp_angle]
    norm_num [ulp_angle]

/-- Operation table with `Yaw(+1)` at id 0 (as `set_op` can install). -/
def yaw_map : OpMap := fun k => if k = 0 then some (.Yaw 1) else none

/-- Witness for C10: a parameterless `Yaw(+1)` from the initial state under
the default configuration. -/
theorem c10_witness :
    (approx_trans.toDeg = to_degrees_f32 ∧ approx_trans.toRad = to_radians_f32 ∧
      yaw_map 0 = some (.Yaw 1)) ∧
    step rat_ring approx_trans default_config yaw_map ⟨0, []⟩
        (init_state rat_ring default_config) =
      { init_state rat_ring default_config with
        turtle :=
          rotate_local_z rat_ring approx_trans (init_state rat_ring default_config).turtle
            (to_radians_f32 (to_degrees_f32 default_config.default_angle) * 1) } :=
  ⟨⟨rfl, rfl, rfl⟩,
    (c10_no_param_angle_is_roundtripped_default approx_trans default_config yaw_map 0 1
      (init_state rat_ring default_config) rfl rfl).1 rfl⟩

/-- A configuration with a tropism direction and NEGATIVE (hence nonzero)
elasticity. -/
def neg_elasticity_config : TurtleConfig ℚ :=
  { default_step := 1, default_angle := default_angle_f32, initial_width := 1/10,
    tropism := some ⟨0, 0, 1⟩, elasticity := -1 }

/-- C8 counterexample.  A `Draw` under a configured tropism direction
with nonzero (but negative) elasticity satisfies every precondition of the
claim — direction set, elasticity ≠ 0, cross-product magnitude `1` above the
threshold — yet the code leaves the heading unbent (the guard is
`elasticity > 0.0`, not nonzero), while the rotation the claim prescribes
differs from the unbent one. -/
theorem c8_counterexample_negative_elasticity :
    neg_elasticity_config.elasticity ≠ 0 ∧
    neg_elasticity_config.tropism = some ⟨0, 0, 1⟩ ∧
    (1/10000 : ℚ) <
      vlength rat_ring approx_trans
        (vcross rat_ring (up rat_ring (init_state rat_ring neg_elasticity_config).turtle)
          ⟨0, 0, 1⟩) ∧
    (step rat_ring approx_trans neg_elasticity_config fixture_map ⟨0, [1]⟩
        (init_state rat_ring neg_elasticity_config)).turtle.rotation = qid rat_ring ∧
    (rotate_axis rat_ring approx_trans
        { (init_state rat_ring neg_elasticity_config).turtle with position := ⟨0, 1, 0⟩ }
        (vnormalize rat_ring approx_trans
          (vcross rat_ring (up rat_ring (init_state rat_ring neg_elasticity_config).turtle)
            ⟨0, 0, 1⟩))
        (neg_elasticity_config.elasticity *
          vlength rat_ring approx_trans
            (vcross rat_ring (up rat_ring (init_state rat_ring neg_elasticity_config).turtle)
              ⟨0, 0, 1⟩))).rotation ≠ qid rat_ring := by
  refine ⟨by norm_num [neg_elasticity_config], rfl, ?_, ?_, ?_⟩
  · norm_num [vlength, vcross, vdot, up, qrotate, qmul, qconj, qid, axis_y, init_state,
      default_turtle, vzero, rat_ring, approx_trans, neg_elasticity_config]
  · norm_num [step, fixture_map, draw_move_step, apply_tropism, init_state,
      default_turtle, vzero, qid, rat_ring, neg_elasticity_config, get_val, getP, up,
      qrotate, qmul, qconj, axis_y, vadd, vscale, add_node, mk_point]
  · intro h
    have hx := congrArg Quat.x h
    norm_num [rotate_axis, from_axis_angle, vnormalize, vlength, vcross, vdot, vscale, up,
      qrotate, qmul, qconj, qid, axis_y, init_state, default_turtle, vzero, rat_ring,
      approx_trans, neg_elasticity_config] at hx

/-- C8 (amended).  For every `Draw` with a configured tropism direction
and POSITIVE elasticity, after the positional advance the heading is bent by
a world-space rotation about the normalized axis `cross(up, tropism)`
through angle `elasticity × |cross(up, tropism)|`, applied only when that
magnitude exceeds the `0.0001` threshold; elasticity ≤ 0 (in particular 0,
but also any negative value) disables tropism entirely even when a direction
is set, an unset direction disables it for any elasticity, and `Move` never
applies tropism bending. -/
theorem c8_tropism_requires_positive_elasticity :
    ∀ (α : Type) (R : SRing α) (T : STrans α) (cfg : TurtleConfig α) (op_map : OpMap)
      (v : InstrView α) (st : LoopState α) (t : TurtleState α) (t_vec : Vec3 α),
      let len := get_val v.params cfg.default_step
      let t1 := { st.turtle with
                  position := vadd R st.turtle.position (vscale R (up R st.turtle) len) }
      (op_map v.sym = some .Draw →
        (step R T cfg op_map v st).turtle = apply_tropism R T cfg t1) ∧
      (op_map v.sym = some .Move → (step R T cfg op_map v st).turtle = t1) ∧
      (cfg.tropism = some t_vec → R.lt (R.ofRat 0) cfg.elasticity = true →
        R.lt (R.ofRat (1/10000)) (vlength R T (vcross R (up R t) t_vec)) = true →
        apply_tropism R T cfg t =
          rotate_axis R T t (vnormalize R T (vcross R (up R t) t_vec))
            (R.mul cfg.elasticity (vlength R T (vcross R (up R t) t_vec)))) ∧
      (cfg.tropism = some t_vec → R.lt (R.ofRat 0) cfg.elasticity = true →
        R.lt (R.ofRat (1/10000)) (vlength R T (vcross R (up R t) t_vec)) = false →
        apply_tropism R T cfg t = t) ∧
      (R.lt (R.ofRat 0) cfg.elasticity = false → apply_tropism R T cfg t = t) ∧
      (cfg.tropism = none → apply_tropism R T cfg t = t) := by
  intro α R T cfg op_map v st t t_vec
  refine ⟨?_, ?_, ?_, ?_, ?_, ?_⟩
  · intro h
    simp [step, h, draw_move_step]
  · intro h
    simp [step, h, draw_move_step]
  · intro htrop he hm
    simp only [one_div] at hm
    simp [apply_tropism, htrop, he, hm]
  · intro htrop he hm
    simp only [one_div] at hm
    simp [apply_tropism, htrop, he, hm]
  · intro he
    cases htrop : cfg.tropism <;> simp [apply_tropism, htrop, he]
  · intro htrop
    simp [apply_tropism, htrop]

/-- A configuration with a tropism direction and positive elasticity. -/
def pos_elasticity_config : TurtleConfig ℚ :=
  { default_step := 1, default_angle := default_angle_f32, initial_width := 1/10,
    tropism := some ⟨0, 0, 1⟩, elasticity := 1 }

/-- Witness for C8: a `Draw` reduces to `apply_tropism` of the advanced
turtle, a `Move` never does, and under positive elasticity with the default
turtle (cross-product magnitude 1, above threshold) `apply_tropism` is the
prescribed world-space bend. -/
theorem c8_witness :
    (fixture_map 0 = some .Draw ∧ pos_elasticity_config.tropism = some ⟨0, 0, 1⟩ ∧
      rat_ring.lt (rat_ring.ofRat 0) pos_elasticity_config.elasticity = true ∧
      rat_ring.lt (rat_ring.ofRat (1/10000))
        (vlength rat_ring approx_trans
          (vcross rat_ring (up rat_ring (default_turtle rat_ring)) ⟨0, 0, 1⟩)) = true) ∧
    (step rat_ring approx_trans pos_elasticity_config fixture_map ⟨0, [1]⟩
        (init_state rat_ring pos_elasticity_config)).turtle =
      apply_tropism rat_ring approx_trans pos_elasticity_config
        { (init_state rat_ring pos_elasticity_config).turtle with
          position := vadd rat_ring (init_state rat_ring pos_elasticity_config).turtle.position
            (vscale rat_ring (up rat_ring (init_state rat_ring pos_elasticity_config).turtle)
              (get_val ([1] : List ℚ) pos_elasticity_config.default_step)) } ∧
    apply_tropism rat_ring approx_trans pos_elasticity_config (default_turtle rat_ring) =
      rotate_axis rat_ring approx_trans (default_turtle rat_ring)
        (vnormalize rat_ring approx_trans
          (vcross rat_ring (up rat_ring (default_turtle rat_ring)) ⟨0, 0, 1⟩))
        (rat_ring.mul pos_elasticity_config.elasticity
          (vlength rat_ring approx_trans
            (vcross rat_ring (up rat_ring (default_turtle rat_ring)) ⟨0, 0, 1⟩))) := by
  have hmag : rat_ring.lt (rat_ring.ofRat (1/10000))
      (vlength rat_ring approx_trans
        (vcross rat_ring (up rat_ring (default_turtle rat_ring)) ⟨0, 0, 1⟩)) = true := by
    norm_num [vlength, vcross, vdot, up, qrotate, qmul, qconj, qid, axis_y,
      default_turtle, vzero, rat_ring, approx_trans]
  refine ⟨⟨rfl, rfl, rfl, hmag⟩, ?_, ?_⟩
  · exact (c8_tropism_requires_positive_elasticity ℚ rat_ring approx_trans
      pos_elasticity_config fixture_map ⟨0, [1]⟩ (init_state rat_ring pos_elasticity_config)
      (default_turtle rat_ring) ⟨0, 0, 1⟩).1 rfl
  · exact (c8_tropism_requires_positive_elasticity ℚ rat_ring approx_trans
      pos_elasticity_config fixture_map ⟨0, [1]⟩ (init_state rat_ring pos_elasticity_config)
      (default_turtle rat_ring) ⟨0, 0, 1⟩).2.2.1 rfl rfl hmag

/-! ### The strand invariant (C4) -/

/-- A well-formed strand: non-empty, and consecutive points at squared
distance at least the deduplication epsilon. -/
def strand_ok (s : List (SkeletonPoint ℚ)) : Prop :=
  s ≠ [] ∧ s.Chain' (fun p q => dedupEps ≤ distSq rat_ring p.position q.position)

/-- The skeleton invariant of C4: every strand is well-formed. -/
def skeleton_inv (sk : Skeleton ℚ) : Prop :=
  ∀ s ∈ sk.strands, strand_ok s

lemma mem_of_getLast?_eq {β : Type} {l : List β} {x : β} (h : l.getLast? = some x) :
    x ∈ l := by
  obtain ⟨hne, rfl⟩ := List.mem_getLast?_eq_getLast (Option.mem_def.mpr h)
  exact List.getLast_mem hne

/-- Lemma: `add_node` preserves the strand invariant. -/
lemma add_node_preserves_inv (sk : Skeleton ℚ) (p : SkeletonPoint ℚ) (f : Bool)
    (hinv : skeleton_inv sk) : skeleton_inv (add_node rat_ring sk p f) := by
  intro s hs
  unfold add_node at hs
  split at hs
  · rcases List.mem_append.mp hs with h | h
    · exact hinv s h
    · rw [List.mem_singleton.mp h]
      exact ⟨by simp, List.chain'_singleton p⟩
  · split at hs
    · exact hinv s hs
    · rename_i last_strand hlast
      have hmem : last_strand ∈ sk.strands := mem_of_getLast?_eq hlast
      have hok := hinv last_strand hmem
      split at hs
      · rename_i last_point hlp
        split at hs
        · exact hinv s hs
        · rename_i hlt
          rcases List.mem_append.mp hs with h | h
          · exact hinv s ((List.dropLast_prefix sk.strands).subset h)
          · rw [List.mem_singleton.mp h]
            refine ⟨by simp, List.chain'_append.mpr ⟨hok.2, List.chain'_singleton p, ?_⟩⟩
            intro x hx y hy
            rw [Option.mem_def, hlp, Option.some_inj] at hx
            rw [List.head?_cons, Option.mem_def, Option.some_inj] at hy
            subst hx
            subst hy
            have : ¬ (distSq rat_ring last_point.position p.position < dedupEps) := by
              simpa [rat_ring] using hlt
            exact le_of_not_lt this
      · rename_i hlp
        have : last_strand = [] := by simpa using hlp
        exact absurd this hok.1

/-- One dispatch step preserves the strand invariant. -/
lemma step_preserves_inv (T : STrans ℚ) (cfg : TurtleConfig ℚ) (op_map : OpMap)
    (v : InstrView ℚ) (st : LoopState ℚ) (hinv : skeleton_inv st.skeleton) :
    skeleton_inv (step rat_ring T cfg op_map v st).skeleton := by
  unfold step
  split
  · -- Draw
    unfold draw_move_step
    dsimp only
    apply add_node_preserves_inv
    split
    · exact add_node_preserves_inv _ _ _ hinv
    · exact hinv
  · -- Move
    unfold draw_move_step
    dsimp only
    apply add_node_preserves_inv
    split
    · exact add_node_preserves_inv _ _ _ hinv
    · exact hinv
  · exact hinv
  · exact hinv
  · exact hinv
  · exact hinv
  · exact hinv
  · exact hinv
  · exact hinv
  · exact hinv
  · exact hinv
  · exact hinv
  · exact hinv
  · exact add_node_preserves_inv _ _ _ hinv
  · -- Pop
    split
    · exact hinv
    · exact add_node_preserves_inv _ _ _ hinv
  · -- Spawn
    exact hinv
  · exact hinv

/-- The loop preserves the strand invariant. -/
lemma run_loop_preserves_inv (T : STrans ℚ) (cfg : TurtleConfig ℚ) (op_map : OpMap) :
    ∀ (instrs : List (Option (InstrView ℚ))) (st : LoopState ℚ),
      skeleton_inv st.skeleton → skeleton_inv (run_loop rat_ring T cfg op_map instrs st).skeleton := by
  intro instrs
  induction instrs with
  | nil => intro st h; exact h
  | cons x rest ih =>
    intro st h
    cases x with
    | none => exact h
    | some v => exact ih _ (step_preserves_inv T cfg op_map v st h)

/-- C4. Invariant of every skeleton returned by `build_skeleton` — over
any configuration, operation table, instruction stream and transcendental
collaborators: each strand contains at least one point, and any two
consecutive points inside the same strand are at squared distance at least
the fixed epsilon (coincident appends are dropped by `add_node`); the rule
applies uniformly because every append of every operation (`Draw`, `Move`,
`Push`, `Pop`) goes through `add_node`. -/
theorem c4_strand_invariant :
    ∀ (T : STrans ℚ) (cfg : TurtleConfig ℚ) (op_map : OpMap)
      (instrs : List (Option (InstrView ℚ))),
      skeleton_inv (build_skeleton rat_ring T cfg op_map instrs) := by
  intro T cfg op_map instrs
  apply run_loop_preserves_inv
  intro s hs
  exact absurd hs (List.not_mem_nil s)

/-- Witness for C4: the invariant instantiated on the branching fixture. -/
theorem c4_witness :
    skeleton_inv (build_skeleton rat_ring approx_trans default_config fixture_map
      branching_instrs) :=
  c4_strand_invariant approx_trans default_config fixture_map branching_instrs

/-! ### NaN propagation (C2) -/

/-- All position and rotation components stored in the skeleton's strand
points are finite. -/
def pose_finite (R : SRing α) (p : SkeletonPoint α) : Bool :=
  R.isFinite p.position.x && R.isFinite p.position.y && R.isFinite p.position.z &&
  R.isFinite p.rotation.x && R.isFinite p.rotation.y && R.isFinite p.rotation.z &&
  R.isFinite p.rotation.w

def skeleton_pose_finite (R : SRing α) (sk : Skeleton α) : Bool :=
  sk.strands.all (fun s => s.all (pose_finite R))

/-- Embeds `TurtleConfig::default` over the NaN-tracking carrier. -/
def nan_config : TurtleConfig (Option ℚ) :=
  { default_step := some 1, default_angle := some default_angle_f32,
    initial_width := some (1/10), tropism := none, elasticity := some 0 }

/-- The table of `tests/adversarial_logic_tests.rs::setup` (id 0 bound to
`Yaw(1.0)` via `set_op`), extended with a `Draw` at id 1. -/
def nan_map : OpMap := fun k =>
  if k = 0 then some (.Yaw 1) else if k = 1 then some .Draw else none

/-- The stream of `test_nan_poisoning` — rotate by NaN — followed by a unit
`Draw` (the scenario the spec's sanitization requirement protects). -/
def nan_instrs : List (Option (InstrView (Option ℚ))) :=
  [some ⟨0, [none]⟩, some ⟨1, [some 1]⟩]

/-- C2 (evaluation at the failing input).  `build_skeleton` performs no
sanitization: a NaN rotation parameter is folded straight into the
quaternion, so the skeleton produced by `Yaw(NaN); F(1)` stores non-finite
rotation values (and a non-finite end-point position) — for every
transcendental collaborator that propagates NaN, as `f32` `sin`/`cos`/
`to_radians` do. -/
theorem c2_nan_reaches_skeleton :
    ∀ T : STrans (Option ℚ),
      T.sin none = none → T.cos none = none → T.toRad none = none →
      skeleton_pose_finite nan_ring
        (build_skeleton nan_ring T nan_config nan_map nan_instrs) = false := by
  intro T hsin hcos hrad
  simp [build_skeleton, run_loop, step, nan_map, nan_instrs, init_state, default_turtle,
    nan_config, rot_angle, get_val, getP, rotate_local_z, from_axis_angle, axis_z, axis_y,
    draw_move_step, apply_tropism, add_node, mk_point, up, qrotate, qmul, qconj, qid,
    vadd, vscale, vsub, vdot, distSq, vzero, nan_ring, hsin, hcos, hrad,
    skeleton_pose_finite, pose_finite]

/-- NaN-absorbing stand-ins for the transcendental collaborators: every
field returns the non-finite marker, which certainly propagates NaN (the
only property the C2 theorem requires of them). -/
def nan_trans : STrans (Option ℚ) :=
  { sqrt := fun _ => none, sin := fun _ => none, cos := fun _ => none,
    toDeg := fun _ => none, toRad := fun _ => none,
    fromMat3 := fun _ _ _ => ⟨none, none, none, none⟩,
    fromRotationArc := fun _ _ => ⟨none, none, none, none⟩ }

/-- Witness for C2: the NaN stream evaluated with the NaN-absorbing
collaborators. -/
theorem c2_witness :
    skeleton_pose_finite nan_ring
      (build_skeleton nan_ring nan_trans nan_config nan_map nan_instrs) = false :=
  c2_nan_reaches_skeleton nan_trans rfl rfl rfl

end SymbiosTurtle3D
